import Mathlib

/-!
Verification development for the bookstore e-commerce backend:
a shallow embedding of the order lifecycle (creation, cancellation,
status update), the order cost calculator, the pre-save recomputation
guard, the refund-eligibility predicate, and the pagination-metadata
helper, together with theorems settling the specification claims.

Monetary amounts (JavaScript numbers holding currency values) are
modelled as exact rationals; `Number.prototype.toFixed(2)` is modelled
as exact round-half-up to two decimal places.  Machine timestamps
(millisecond epochs from `Date.now()` / `new Date()`) are modelled as
integers and passed explicitly where the source reads the clock.
-/

namespace Ecom

/-- Model of `x.toFixed(2)` (then re-parsed as a number, as the source
does via `parseFloat`): round half-up to two decimal places. -/
def toFixed2 (x : ℚ) : ℚ :=
  ((⌊x * 100 + 1 / 2⌋ : ℤ) : ℚ) / 100

/-- `paymentMethod` enum of `orderSchema` in `src/models/order.js`. -/
inductive PaymentMethod where
  | credit_card
  | debit_card
  | paypal
  | cash_on_delivery
deriving DecidableEq

/-- `paymentStatus` enum of `orderSchema` in `src/models/order.js`. -/
inductive PaymentStatus where
  | pending
  | completed
  | failed
  | refunded
deriving DecidableEq

/-- `orderStatus` enum of `orderSchema` in `src/models/order.js`. -/
inductive OrderStatus where
  | pending
  | confirmed
  | processing
  | shipped
  | delivered
  | cancelled
deriving DecidableEq

/-- `shippingAddressSchema` in `src/models/order.js`. -/
structure ShippingAddress where
  fullName : String
  phoneNumber : String
  address : String
  city : String
  state : String
  zipCode : String
  country : String
deriving DecidableEq

/-- `orderItemSchema` in `src/models/order.js`: the immutable snapshot
of one cart line taken at order-creation time. -/
structure OrderItem where
  bookId : Nat
  title : String
  author : String
  quantity : Nat
  price : ℚ
  subtotal : ℚ
deriving DecidableEq

/-- `orderSchema` in `src/models/order.js` (persisted fields; the
`timestamps` option contributes `createdAt`). -/
structure Order where
  userId : Nat
  orderNumber : String
  items : List OrderItem
  shippingAddress : ShippingAddress
  paymentMethod : PaymentMethod
  paymentStatus : PaymentStatus
  orderStatus : OrderStatus
  subtotal : ℚ
  tax : ℚ
  shippingCost : ℚ
  total : ℚ
  notes : Option String
  cancelledAt : Option Int
  deliveredAt : Option Int
  createdAt : Int
deriving DecidableEq

/-- `orderSchema.methods.calculateSubtotal` (`src/models/order.js`
lines 120-123): `this.subtotal = this.items.reduce((acc, item) => acc +
item.subtotal, 0)`. -/
def Order.calculateSubtotal (o : Order) : Order :=
  { o with subtotal := o.items.foldl (fun acc item => acc + item.subtotal) 0 }

/-- `orderSchema.methods.calculateTax` (lines 130-133):
`this.tax = parseFloat((this.subtotal * taxRate).toFixed(2))`. -/
def Order.calculateTax (o : Order) (taxRate : ℚ) : Order :=
  { o with tax := toFixed2 (o.subtotal * taxRate) }

/-- `orderSchema.methods.calculateShippingCost` (lines 140-145):
`this.shippingCost = this.subtotal >= freeShippingThreshold ? 0 : 199`. -/
def Order.calculateShippingCost (o : Order) (freeShippingThreshold : ℚ) : Order :=
  { o with shippingCost := if freeShippingThreshold ≤ o.subtotal then 0 else 199 }

/-- `orderSchema.methods.calculateTotal` (lines 151-156): `this.total =
parseFloat((this.subtotal + this.tax + this.shippingCost).toFixed(2))`. -/
def Order.calculateTotal (o : Order) : Order :=
  { o with total := toFixed2 (o.subtotal + o.tax + o.shippingCost) }

/-- `orderSchema.methods.calculateOrderCosts` (lines 165-180): calls, in
strict order, `calculateSubtotal`, `calculateTax taxRate`,
`calculateShippingCost freeShippingThreshold`, `calculateTotal`. -/
def Order.calculateOrderCosts (o : Order) (taxRate freeShippingThreshold : ℚ) : Order :=
  (((o.calculateSubtotal).calculateTax taxRate).calculateShippingCost
    freeShippingThreshold).calculateTotal

/-- `calculateOrderCosts` at its default option values `taxRate = 0.08`
and `freeShippingThreshold = 50` (the destructuring defaults at line
166, also the defaults of the individual methods). -/
def Order.calculateOrderCostsDefault (o : Order) : Order :=
  o.calculateOrderCosts (8 / 100) 50

/-- The `orderSchema.pre('save')` hook (lines 260-266): recompute the
costs (with default options) only when the order has items and
`subtotal === 0`. -/
def Order.preSave (o : Order) : Order :=
  if o.items ≠ [] ∧ o.subtotal = 0 then o.calculateOrderCostsDefault else o

/-- `orderSchema.methods.canBeCancelled` (lines 186-188). -/
def Order.canBeCancelled (o : Order) : Bool :=
  !(decide (o.orderStatus = OrderStatus.delivered)
    || decide (o.orderStatus = OrderStatus.cancelled))

/-- The 30-day refund window of `canBeRefunded`, in milliseconds
(`30 * 24 * 60 * 60 * 1000` at line 195). -/
def refundWindowMs : Int := 30 * 24 * 60 * 60 * 1000

/-- `orderSchema.methods.canBeRefunded` (lines 194-203): delivered,
payment completed, and `Date.now() - this.createdAt.getTime()` at most
the refund window.  The method only reads fields of `this` and performs
no assignment or save, so it is embedded as a pure function. -/
def Order.canBeRefunded (o : Order) (now : Int) : Bool :=
  decide (o.orderStatus = OrderStatus.delivered)
    && decide (o.paymentStatus = PaymentStatus.completed)
    && decide (now - o.createdAt ≤ refundWindowMs)

/-- Modelled from the spec: `src/models/book.js` is not in the sources;
§3 of the spec gives a Book its title, author, price (≥ 0) and integer
stock.  Stock is an `Int` because `findByIdAndUpdate` with `$inc` does
not run the schema `min` validator, so a decrement can drive it
negative. -/
structure Book where
  title : String
  author : String
  price : ℚ
  stock : Int
deriving DecidableEq

/-- Modelled from the spec: `src/models/cart.js` is not in the sources;
§3 of the spec gives a cart line its book reference, quantity (≥ 1) and
price captured at add time. -/
structure CartItem where
  bookId : Nat
  quantity : Nat
  price : ℚ
deriving DecidableEq

/-- Modelled from the spec: `src/models/cart.js` is not in the sources;
§3 of the spec gives a cart its ordered line sequence and derived
total. -/
structure Cart where
  items : List CartItem
  total : ℚ
deriving DecidableEq

/-- The persistent state the order controller touches: books keyed by
id, carts keyed by owning user id, orders keyed by id. -/
structure DB where
  books : List (Nat × Book)
  carts : List (Nat × Cart)
  orders : List (Nat × Order)
deriving DecidableEq

/-- `Book.findById`. -/
def findBook (books : List (Nat × Book)) (id : Nat) : Option Book :=
  (books.find? (fun p => p.1 == id)).map Prod.snd

/-- `Book.findByIdAndUpdate(id, { $inc: { stock: d } })`. -/
def incStock (books : List (Nat × Book)) (id : Nat) (d : Int) : List (Nat × Book) :=
  books.map (fun p =>
    if p.1 == id then (p.1, { p.2 with stock := p.2.stock + d }) else p)

/-- The stock visible for a book id, `none` when the book is absent. -/
def stockOf (books : List (Nat × Book)) (id : Nat) : Option Int :=
  (findBook books id).map Book.stock

/-- `Cart.findOne({ userId })`. -/
def findCart (carts : List (Nat × Cart)) (userId : Nat) : Option Cart :=
  (carts.find? (fun p => p.1 == userId)).map Prod.snd

/-- Persisting the (mutated) cart of a user: `cart.save()`. -/
def updateCart (carts : List (Nat × Cart)) (userId : Nat) (c : Cart) :
    List (Nat × Cart) :=
  carts.map (fun p => if p.1 == userId then (p.1, c) else p)

/-- `Order.findById(orderId)`. -/
def findOrder (orders : List (Nat × Order)) (orderId : Nat) : Option Order :=
  (orders.find? (fun p => p.1 == orderId)).map Prod.snd

/-- `Order.findOne({ _id: orderId, userId })`. -/
def findOrderOwned (orders : List (Nat × Order)) (orderId userId : Nat) :
    Option Order :=
  (orders.find? (fun p => p.1 == orderId && p.2.userId == userId)).map Prod.snd

/-- Persisting a mutated order document: `order.save()` writes back
under its id (the pre-save hook is applied by the callers). -/
def updateOrder (orders : List (Nat × Order)) (orderId : Nat) (o : Order) :
    List (Nat × Order) :=
  orders.map (fun p => if p.1 == orderId then (p.1, o) else p)

/-- The error responses the order controller can produce
(`src/controllers/orderController.js`), identified by their `code`
field; `insufficientStock` carries the available count the message
reports, `bookNotFound` the title interpolated into the message. -/
inductive OrderError where
  | missingFields
  | emptyCart
  | bookNotFound (title : String)
  | insufficientStock (title : String) (available : Int)
  | orderNotFound
  | invalidOrderStatus (current : OrderStatus)
  | invalidStatus
  | internalServerError
deriving DecidableEq

/-- The stock-validation loop of `createOrder` (controller lines 46-64),
over the populated cart lines.  `.populate('items.bookId')` replaces a
dangling book reference by `null`, so for a line whose book no longer
exists, `item.bookId._id` throws a `TypeError` that the surrounding
`catch` turns into a 500 `INTERNAL_SERVER_ERROR` response; the
`BOOK_NOT_FOUND` branch guarding `Book.findById`'s result is kept here
but — the two lookups being the same read in the sequential model — it
is unreachable. -/
def validateItems (books : List (Nat × Book)) : List CartItem → Option OrderError
  | [] => none
  | item :: rest =>
    match findBook books item.bookId with
    | none => some OrderError.internalServerError
    | some populated =>
      match findBook books item.bookId with
      | none => some (OrderError.bookNotFound populated.title)
      | some book =>
        if book.stock < (item.quantity : Int) then
          some (OrderError.insufficientStock book.title book.stock)
        else
          validateItems books rest

/-- The snapshot of the cart lines into order line items (controller
lines 67-74): `bookId`, `title`, `author` from the populated book,
`quantity` and `price` from the cart line, `subtotal = item.price *
item.quantity`.  (The `getD` default is never reached on the success
path, where validation has established every lookup succeeds.) -/
def snapshotItems (books : List (Nat × Book)) (items : List CartItem) :
    List OrderItem :=
  items.map (fun item =>
    let bk := (findBook books item.bookId).getD
      { title := "", author := "", price := 0, stock := 0 }
    ({ bookId := item.bookId, title := bk.title, author := bk.author,
       quantity := item.quantity, price := item.price,
       subtotal := item.price * (item.quantity : ℚ) } : OrderItem))

/-- The `new Order({...})` document built at controller lines 77-88:
`paymentStatus` is `pending` for cash on delivery and `completed` for
any prepaid method, `orderStatus` starts at `confirmed`, the four cost
fields are left at their schema default `0`. -/
def mkNewOrder (books : List (Nat × Book)) (userId : Nat) (sa : ShippingAddress)
    (pm : PaymentMethod) (notes : Option String) (orderNumber : String)
    (now : Int) (items : List CartItem) : Order :=
  { userId := userId
    orderNumber := orderNumber
    items := snapshotItems books items
    shippingAddress := sa
    paymentMethod := pm
    paymentStatus :=
      if pm = PaymentMethod.cash_on_delivery then PaymentStatus.pending
      else PaymentStatus.completed
    orderStatus := OrderStatus.confirmed
    subtotal := 0
    tax := 0
    shippingCost := 0
    total := 0
    notes := notes
    cancelledAt := none
    deliveredAt := none
    createdAt := now }

/-- `createOrder` (controller lines 20-122).  The generated order
number, the fresh order id and the clock reading are parameters.  Error
paths return the state unchanged, mirroring the early returns that
precede every write; the success path runs `calculateOrderCosts()` with
default options, saves the order (running the pre-save hook),
decrements every line's book stock with `$inc`, and clears the cart. -/
def createOrder (db : DB) (userId : Nat) (shippingAddress : Option ShippingAddress)
    (paymentMethod : Option PaymentMethod) (notes : Option String)
    (orderNumber : String) (newOrderId : Nat) (now : Int) :
    DB × Except OrderError Order :=
  match shippingAddress, paymentMethod with
  | none, _ => (db, Except.error OrderError.missingFields)
  | _, none => (db, Except.error OrderError.missingFields)
  | some sa, some pm =>
    match findCart db.carts userId with
    | none => (db, Except.error OrderError.emptyCart)
    | some cart =>
      if cart.items = [] then (db, Except.error OrderError.emptyCart)
      else
        match validateItems db.books cart.items with
        | some e => (db, Except.error e)
        | none =>
          let savedOrder :=
            ((mkNewOrder db.books userId sa pm notes orderNumber now
              cart.items).calculateOrderCostsDefault).preSave
          let books1 := cart.items.foldl
            (fun bs item => incStock bs item.bookId (-(item.quantity : Int))) db.books
          let carts1 := updateCart db.carts userId { items := [], total := 0 }
          ({ books := books1, carts := carts1,
             orders := (newOrderId, savedOrder) :: db.orders },
           Except.ok savedOrder)

/-- `cancelOrder` (controller lines 218-269): ownership-scoped lookup,
guard against delivered/cancelled, then set `orderStatus = 'cancelled'`
and `cancelledAt = new Date()`, save (running the pre-save hook), and
credit every order line's quantity back with `$inc`. -/
def cancelOrder (db : DB) (orderId userId : Nat) (now : Int) :
    DB × Except OrderError Order :=
  match findOrderOwned db.orders orderId userId with
  | none => (db, Except.error OrderError.orderNotFound)
  | some order =>
    if order.orderStatus = OrderStatus.delivered
        ∨ order.orderStatus = OrderStatus.cancelled then
      (db, Except.error (OrderError.invalidOrderStatus order.orderStatus))
    else
      let savedOrder :=
        ({ order with orderStatus := OrderStatus.cancelled,
                      cancelledAt := some now } : Order).preSave
      let books1 := savedOrder.items.foldl
        (fun bs item => incStock bs item.bookId (item.quantity : Int)) db.books
      ({ db with orders := updateOrder db.orders orderId savedOrder,
                 books := books1 },
       Except.ok savedOrder)

/-- The membership test against `validStatuses` (controller lines
282-297), returning the tagged status a string denotes. -/
def statusOfString (s : String) : Option OrderStatus :=
  if s = "pending" then some OrderStatus.pending
  else if s = "confirmed" then some OrderStatus.confirmed
  else if s = "processing" then some OrderStatus.processing
  else if s = "shipped" then some OrderStatus.shipped
  else if s = "delivered" then some OrderStatus.delivered
  else if s = "cancelled" then some OrderStatus.cancelled
  else none

/-- `updateOrderStatus` (controller lines 276-333): validate the status
string against `validStatuses`, look the order up by id alone, assign
the status unconditionally, stamp `deliveredAt` when the new status is
`delivered`, save. -/
def updateOrderStatus (db : DB) (orderId : Nat) (orderStatus : String)
    (now : Int) : DB × Except OrderError Order :=
  match statusOfString orderStatus with
  | none => (db, Except.error OrderError.invalidStatus)
  | some st =>
    match findOrder db.orders orderId with
    | none => (db, Except.error OrderError.orderNotFound)
    | some order =>
      let savedOrder :=
        ({ order with
            orderStatus := st,
            deliveredAt :=
              if orderStatus = "delivered" then some now else order.deliveredAt }
          : Order).preSave
      ({ db with orders := updateOrder db.orders orderId savedOrder },
       Except.ok savedOrder)

/-- Return shape of `getPaginationMetadata` (`src/unnamed/part_000`). -/
structure PaginationMetadata where
  currentPage : Nat
  totalPages : Int
  totalItems : Nat
  itemsPerPage : Nat
  hasNextPage : Bool
  hasPreviousPage : Bool
deriving DecidableEq

/-- `getPaginationMetadata` (`src/unnamed/part_000` lines 8-17), on
already-numeric inputs (`parseInt` is the identity there);
`Math.ceil(total / limit)` is exact rational division followed by
ceiling (the inputs of interest have `limit ≥ 1`, avoiding the
division-by-zero infinity of JavaScript). -/
def getPaginationMetadata (page limit total : Nat) : PaginationMetadata :=
  { currentPage := page
    totalPages := ⌈(total : ℚ) / (limit : ℚ)⌉
    totalItems := total
    itemsPerPage := limit
    hasNextPage := decide (page * limit < total)
    hasPreviousPage := decide (1 < page) }

/-- Total quantity a cart orders for one book id (a cart produced by
the cart engine has at most one line per book, but the definition sums
over duplicates exactly as the `$inc` loop does). -/
def cartQtyFor (items : List CartItem) (id : Nat) : Int :=
  ((items.filter (fun item => item.bookId == id)).map
    (fun item => (item.quantity : Int))).sum

/-- Total quantity an order's line items carry for one book id. -/
def orderQtyFor (items : List OrderItem) (id : Nat) : Int :=
  ((items.filter (fun item => item.bookId == id)).map
    (fun item => (item.quantity : Int))).sum

/-! ### Concrete sample data (used by witness theorems) -/

def addr0 : ShippingAddress :=
  { fullName := "Jo Reader", phoneNumber := "555-0100", address := "1 Main St",
    city := "Springfield", state := "IL", zipCode := "62704", country := "USA" }

/-- An order whose single line item has subtotal 50: exactly the free
shipping threshold. -/
def orderAt50 : Order :=
  { userId := 1, orderNumber := "ORD-50",
    items := [{ bookId := 1, title := "Dune", author := "Herbert",
                quantity := 2, price := 25, subtotal := 50 }],
    shippingAddress := addr0, paymentMethod := PaymentMethod.paypal,
    paymentStatus := PaymentStatus.pending, orderStatus := OrderStatus.pending,
    subtotal := 0, tax := 0, shippingCost := 0, total := 0,
    notes := none, cancelledAt := none, deliveredAt := none, createdAt := 0 }

/-- An order whose single line item has subtotal 49.99: one cent below
the free shipping threshold. -/
def orderBelow50 : Order :=
  { orderAt50 with
    orderNumber := "ORD-49"
    items := [{ bookId := 1, title := "Dune", author := "Herbert",
                quantity := 1, price := 4999 / 100, subtotal := 4999 / 100 }] }

/-- An order with non-zero subtotal whose stored costs are exactly the
computed ones (`tax = toFixed2 (20 * 0.08) = 1.6`, `shippingCost = 199`
below the threshold, `total = toFixed2 (20 + 1.6 + 199) = 220.6`). -/
def orderComputed : Order :=
  { userId := 2, orderNumber := "ORD-C",
    items := [{ bookId := 1, title := "Dune", author := "Herbert",
                quantity := 2, price := 10, subtotal := 20 }],
    shippingAddress := addr0, paymentMethod := PaymentMethod.credit_card,
    paymentStatus := PaymentStatus.completed, orderStatus := OrderStatus.confirmed,
    subtotal := 20, tax := 8 / 5, shippingCost := 199, total := 1103 / 5,
    notes := none, cancelledAt := none, deliveredAt := some 3, createdAt := 0 }

/-- A delivered order (for the status-update counterexample). -/
def orderDelivered : Order :=
  { orderComputed with
    orderNumber := "ORD-D"
    orderStatus := OrderStatus.delivered }

/-- An already-cancelled order. -/
def orderCancelled : Order :=
  { orderComputed with
    orderNumber := "ORD-X"
    orderStatus := OrderStatus.cancelled
    cancelledAt := some 9 }

/-- Two catalog books with stock. -/
def books0 : List (Nat × Book) :=
  [(1, { title := "Dune", author := "Herbert", price := 10, stock := 5 }),
   (2, { title := "Emma", author := "Austen", price := 15, stock := 3 })]

/-- A two-line cart of user 7 over `books0`, within stock. -/
def cart0 : Cart :=
  { items := [{ bookId := 1, quantity := 2, price := 10 },
              { bookId := 2, quantity := 1, price := 15 }],
    total := 35 }

/-- State for the create/cancel scenarios: user 7 owns `cart0`. -/
def db0 : DB := { books := books0, carts := [(7, cart0)], orders := [] }

/-- State with an empty cart for user 7. -/
def dbEmptyCart : DB :=
  { books := books0, carts := [(7, { items := [], total := 0 })], orders := [] }

/-- State whose cart references book id 9, which is absent from the
catalog (the book was deleted after being added to the cart). -/
def dbMissingBook : DB :=
  { books := books0,
    carts := [(7, { items := [{ bookId := 9, quantity := 1, price := 10 }],
                    total := 10 })],
    orders := [] }

/-- State whose cart asks for 4 copies of book 2 while only 3 are in
stock. -/
def dbLowStock : DB :=
  { books := books0,
    carts := [(7, { items := [{ bookId := 2, quantity := 4, price := 15 }],
                    total := 60 })],
    orders := [] }

/-- State holding a delivered order under id 1 (owner: user 2). -/
def dbDelivered : DB :=
  { books := books0, carts := [], orders := [(1, orderDelivered)] }

/-- State holding an already-cancelled order under id 1 (owner: user 2). -/
def dbCancelled : DB :=
  { books := books0, carts := [], orders := [(1, orderCancelled)] }

/-- State holding a cancellable order with computed costs under id 1
(owner: user 2). -/
def dbConfirmed : DB :=
  { books := books0, carts := [], orders := [(1, orderComputed)] }

/-- `orderComputed` after cancellation at time 11. -/
def cancelledComputed : Order :=
  { orderComputed with
    orderStatus := OrderStatus.cancelled
    cancelledAt := some 11 }

/-- `dbConfirmed` after `cancelOrder`: the two ordered copies of book 1
are credited back. -/
def dbConfirmedCancelled : DB :=
  { books := [(1, { title := "Dune", author := "Herbert", price := 10, stock := 7 }),
              (2, { title := "Emma", author := "Austen", price := 15, stock := 3 })],
    carts := [], orders := [(1, cancelledComputed)] }

/-! ### Helper lemmas -/

lemma foldl_add_subtotal (l : List OrderItem) (a : ℚ) :
    l.foldl (fun acc item => acc + item.subtotal) a
      = a + (l.map OrderItem.subtotal).sum := by
  induction l generalizing a with
  | nil => simp
  | cons x xs ih => simp [ih, add_assoc]

/-- Normal form of the cost computation: `calculateOrderCosts` rewrites
exactly the four cost fields, each a function of the item subtotals. -/
lemma calculateOrderCosts_eq (o : Order) (r θ : ℚ) :
    o.calculateOrderCosts r θ =
      { o with
          subtotal := (o.items.map OrderItem.subtotal).sum
          tax := toFixed2 ((o.items.map OrderItem.subtotal).sum * r)
          shippingCost :=
            if θ ≤ (o.items.map OrderItem.subtotal).sum then 0 else 199
          total := toFixed2 ((o.items.map OrderItem.subtotal).sum
            + toFixed2 ((o.items.map OrderItem.subtotal).sum * r)
            + if θ ≤ (o.items.map OrderItem.subtotal).sum then 0 else 199) } := by
  cases o
  simp [Order.calculateOrderCosts, Order.calculateSubtotal, Order.calculateTax,
    Order.calculateShippingCost, Order.calculateTotal, foldl_add_subtotal]

lemma preSave_items (o : Order) : o.preSave.items = o.items := by
  unfold Order.preSave
  split
  · rw [Order.calculateOrderCostsDefault, calculateOrderCosts_eq]
  · rfl

lemma preSave_orderStatus (o : Order) : o.preSave.orderStatus = o.orderStatus := by
  unfold Order.preSave
  split
  · rw [Order.calculateOrderCostsDefault, calculateOrderCosts_eq]
  · rfl

lemma preSave_paymentStatus (o : Order) :
    o.preSave.paymentStatus = o.paymentStatus := by
  unfold Order.preSave
  split
  · rw [Order.calculateOrderCostsDefault, calculateOrderCosts_eq]
  · rfl

lemma preSave_userId (o : Order) : o.preSave.userId = o.userId := by
  unfold Order.preSave
  split
  · rw [Order.calculateOrderCostsDefault, calculateOrderCosts_eq]
  · rfl

lemma preSave_cancelledAt (o : Order) :
    o.preSave.cancelledAt = o.cancelledAt := by
  unfold Order.preSave
  split
  · rw [Order.calculateOrderCostsDefault, calculateOrderCosts_eq]
  · rfl

/-- When the subtotal is already non-zero the pre-save hook does
nothing. -/
lemma preSave_of_subtotal_ne (o : Order) (h : o.subtotal ≠ 0) :
    o.preSave = o := by
  unfold Order.preSave
  rw [if_neg]
  intro hc
  exact h hc.2

/-- When the order has no items the pre-save hook does nothing. -/
lemma preSave_of_items_nil (o : Order) (h : o.items = []) :
    o.preSave = o := by
  unfold Order.preSave
  rw [if_neg]
  intro hc
  exact hc.1 h

/-- Recomputing costs is determined by the items alone, so it is
idempotent. -/
lemma calculateOrderCostsDefault_idem (o : Order) :
    (o.calculateOrderCostsDefault).calculateOrderCostsDefault
      = o.calculateOrderCostsDefault := by
  unfold Order.calculateOrderCostsDefault
  rw [calculateOrderCosts_eq, calculateOrderCosts_eq]

/-- After an explicit cost computation, the pre-save hook is the
identity up to one (idempotent) recomputation. -/
lemma preSave_calculateOrderCostsDefault (o : Order) :
    (o.calculateOrderCostsDefault).preSave = o.calculateOrderCostsDefault := by
  unfold Order.preSave
  split
  · exact calculateOrderCostsDefault_idem o
  · rfl

/-- On an order whose costs are already the computed ones, updating
status fields and re-saving leaves the document unchanged: the hook
either skips (subtotal ≠ 0) or recomputes the very same values. -/
lemma preSave_update_of_fixed (o : Order) (st : OrderStatus) (c : Option Int)
    (hfix : o.calculateOrderCostsDefault = o) :
    ({ o with orderStatus := st, cancelledAt := c } : Order).preSave
      = { o with orderStatus := st, cancelledAt := c } := by
  unfold Order.preSave
  split
  · rw [Order.calculateOrderCostsDefault, calculateOrderCosts_eq]
    rw [Order.calculateOrderCostsDefault, calculateOrderCosts_eq] at hfix
    cases o
    simp only [Order.mk.injEq, and_true, true_and] at hfix ⊢
    exact hfix
  · rfl

lemma stockOf_cons_of_ne (p : Nat × Book) (tl : List (Nat × Book)) (id : Nat)
    (h : (p.1 == id) = false) : stockOf (p :: tl) id = stockOf tl id := by
  simp [stockOf, findBook, List.find?, h]

lemma stockOf_cons_of_eq (p : Nat × Book) (tl : List (Nat × Book)) (id : Nat)
    (h : (p.1 == id) = true) : stockOf (p :: tl) id = some p.2.stock := by
  simp [stockOf, findBook, List.find?, h]

lemma incStock_cons (p : Nat × Book) (tl : List (Nat × Book)) (b : Nat)
    (d : Int) :
    incStock (p :: tl) b d =
      (if p.1 == b then (p.1, { p.2 with stock := p.2.stock + d }) else p)
        :: incStock tl b d := by
  simp [incStock]

lemma stockOf_incStock (books : List (Nat × Book)) (b : Nat) (d : Int)
    (id : Nat) :
    stockOf (incStock books b d) id =
      if id = b then (stockOf books id).map (fun s => s + d)
      else stockOf books id := by
  induction books with
  | nil =>
    simp [stockOf, incStock, findBook]
  | cons hd tl ih =>
    obtain ⟨k, bk⟩ := hd
    rw [incStock_cons]
    have hfst :
        (if (k, bk).1 == b then ((k, bk).1, { (k, bk).2 with stock := (k, bk).2.stock + d })
         else (k, bk)).1 = k := by
      split <;> rfl
    by_cases hk : k = id
    · have hki : (((k, bk) : Nat × Book).1 == id) = true := by simp [hk]
      rw [stockOf_cons_of_eq _ _ _ (by rw [hfst]; simpa using hki),
        stockOf_cons_of_eq _ _ _ hki]
      by_cases hb : k = b
      · have hib : id = b := by rw [← hk, hb]
        rw [if_pos hib]
        have hkb : (((k, bk) : Nat × Book).1 == b) = true := by simp [hb]
        simp [hkb]
      · have hib : ¬ id = b := fun hc => hb (by rw [hk, hc])
        rw [if_neg hib]
        have hkb : (((k, bk) : Nat × Book).1 == b) = false := by simp [hb]
        simp [hkb]
    · have hki : (((k, bk) : Nat × Book).1 == id) = false := by simp [hk]
      rw [stockOf_cons_of_ne _ _ _ (by rw [hfst]; simpa using hki),
        stockOf_cons_of_ne _ _ _ hki, ih]

/-- Net effect on one book of a left-to-right sequence of `$inc`
updates: the stock moves by the sum of the deltas of the entries whose
key matches. -/
lemma stockOf_foldl_incStock {α : Type} (key : α → Nat) (delta : α → Int)
    (l : List α) (books : List (Nat × Book)) (id : Nat) :
    stockOf (l.foldl (fun bs x => incStock bs (key x) (delta x)) books) id =
      (stockOf books id).map
        (fun s => s + ((l.filter (fun x => key x == id)).map delta).sum) := by
  induction l generalizing books with
  | nil => cases h : stockOf books id <;> simp [h]
  | cons x xs ih =>
    rw [List.foldl_cons, ih, stockOf_incStock]
    by_cases h : id = key x
    · have hb : (key x == id) = true := by simp [h]
      rw [if_pos h]
      cases hs : stockOf books id <;>
        simp [hs, List.filter_cons, hb, add_assoc]
    · have hb : (key x == id) = false := by
        simp
        intro hc
        exact h hc.symm
      rw [if_neg h]
      cases hs : stockOf books id <;> simp [hs, List.filter_cons, hb]

lemma sum_map_neg {α : Type} (f : α → Int) (l : List α) :
    (l.map (fun x => -f x)).sum = -(l.map f).sum := by
  induction l with
  | nil => simp
  | cons x xs ih =>
    simp only [List.map_cons, List.sum_cons, ih, neg_add]

/-- The validation loop succeeds when every line's book exists with
stock at least the requested quantity. -/
lemma validateItems_eq_none (books : List (Nat × Book)) (items : List CartItem)
    (h : ∀ item ∈ items, ∃ b, findBook books item.bookId = some b
        ∧ (item.quantity : Int) ≤ b.stock) :
    validateItems books items = none := by
  induction items with
  | nil => rfl
  | cons it rest ih =>
    obtain ⟨b, hb, hle⟩ := h it (by simp)
    rw [validateItems, hb]
    simp only
    rw [if_neg (not_lt.mpr hle)]
    exact ih (fun x hx => h x (by simp [hx]))

lemma findCart_cons_of_eq (p : Nat × Cart) (tl : List (Nat × Cart)) (u : Nat)
    (h : (p.1 == u) = true) : findCart (p :: tl) u = some p.2 := by
  simp [findCart, List.find?, h]

lemma findCart_cons_of_ne (p : Nat × Cart) (tl : List (Nat × Cart)) (u : Nat)
    (h : (p.1 == u) = false) : findCart (p :: tl) u = findCart tl u := by
  simp [findCart, List.find?, h]

lemma updateCart_cons (p : Nat × Cart) (tl : List (Nat × Cart)) (u : Nat)
    (c : Cart) :
    updateCart (p :: tl) u c =
      (if p.1 == u then (p.1, c) else p) :: updateCart tl u c := by
  simp [updateCart]

lemma findCart_updateCart (carts : List (Nat × Cart)) (u : Nat) (c : Cart) :
    findCart (updateCart carts u c) u = (findCart carts u).map (fun _ => c) := by
  induction carts with
  | nil => rfl
  | cons hd tl ih =>
    obtain ⟨k, ct⟩ := hd
    rw [updateCart_cons]
    have hfst :
        (if ((k, ct) : Nat × Cart).1 == u then (((k, ct) : Nat × Cart).1, c)
         else (k, ct)).1 = k := by
      split <;> rfl
    by_cases h : k = u
    · have hb : (((k, ct) : Nat × Cart).1 == u) = true := by simp [h]
      rw [findCart_cons_of_eq _ _ _ (by rw [hfst]; simpa using hb),
        findCart_cons_of_eq _ _ _ hb]
      simp [hb]
    · have hb : (((k, ct) : Nat × Cart).1 == u) = false := by simp [h]
      rw [findCart_cons_of_ne _ _ _ (by rw [hfst]; simpa using hb),
        findCart_cons_of_ne _ _ _ hb, ih]

/-- Net effect of the stock-decrement loop of `createOrder`. -/
lemma stockOf_debit (items : List CartItem) (books : List (Nat × Book))
    (id : Nat) :
    stockOf (items.foldl
        (fun bs item => incStock bs item.bookId (-(item.quantity : Int))) books) id
      = (stockOf books id).map (fun s => s - cartQtyFor items id) := by
  rw [stockOf_foldl_incStock (fun item => item.bookId)
    (fun item => -((item.quantity : Nat) : Int)) items books id]
  cases hs : stockOf books id <;>
    simp [hs, cartQtyFor, sum_map_neg, sub_eq_add_neg]

/-- Net effect of the stock-restore loop of `cancelOrder`. -/
lemma stockOf_credit (items : List OrderItem) (books : List (Nat × Book))
    (id : Nat) :
    stockOf (items.foldl
        (fun bs item => incStock bs item.bookId (item.quantity : Int)) books) id
      = (stockOf books id).map (fun s => s + orderQtyFor items id) := by
  rw [stockOf_foldl_incStock (fun item => item.bookId)
    (fun item => ((item.quantity : Nat) : Int)) items books id]
  cases hs : stockOf books id <;> simp [hs, orderQtyFor]

/-- The snapshot preserves every line's book id and quantity, hence the
per-book ordered quantities. -/
lemma orderQtyFor_snapshotItems (books : List (Nat × Book))
    (items : List CartItem) (id : Nat) :
    orderQtyFor (snapshotItems books items) id = cartQtyFor items id := by
  induction items with
  | nil => rfl
  | cons it rest ih =>
    simp only [orderQtyFor, snapshotItems, cartQtyFor, List.map_cons,
      List.filter_cons] at ih ⊢
    by_cases h : (it.bookId == id) = true
    · simp only [h, if_true]
      simp only [List.map_cons, List.sum_cons]
      rw [ih]
    · simp only [Bool.not_eq_true] at h
      simp only [h, if_false]
      exact ih

/-- Reduction of `createOrder` on the success path. -/
lemma createOrder_ok_eq (db : DB) (userId : Nat) (sa : ShippingAddress)
    (pm : PaymentMethod) (notes : Option String) (orderNumber : String)
    (newOrderId : Nat) (now : Int) (cart : Cart)
    (hcart : findCart db.carts userId = some cart)
    (hne : cart.items ≠ [])
    (hv : validateItems db.books cart.items = none) :
    createOrder db userId (some sa) (some pm) notes orderNumber newOrderId now
      = ({ books := cart.items.foldl
             (fun bs item => incStock bs item.bookId (-(item.quantity : Int)))
             db.books,
           carts := updateCart db.carts userId { items := [], total := 0 },
           orders := (newOrderId,
             ((mkNewOrder db.books userId sa pm notes orderNumber now
               cart.items).calculateOrderCostsDefault).preSave) :: db.orders },
         Except.ok (((mkNewOrder db.books userId sa pm notes orderNumber now
           cart.items).calculateOrderCostsDefault).preSave)) := by
  simp only [createOrder, hcart, hv, if_neg hne]

/-- Reduction of `cancelOrder` on the success path. -/
lemma cancelOrder_ok_eq (db : DB) (orderId userId : Nat) (now : Int) (o : Order)
    (hfind : findOrderOwned db.orders orderId userId = some o)
    (hguard : ¬(o.orderStatus = OrderStatus.delivered
      ∨ o.orderStatus = OrderStatus.cancelled)) :
    cancelOrder db orderId userId now =
      ({ db with
          orders := updateOrder db.orders orderId
            (({ o with orderStatus := OrderStatus.cancelled, cancelledAt := some now } : Order).preSave),
          books := (({ o with orderStatus := OrderStatus.cancelled, cancelledAt := some now } : Order).preSave).items.foldl
            (fun bs item => incStock bs item.bookId (item.quantity : Int))
            db.books },
       Except.ok (({ o with orderStatus := OrderStatus.cancelled, cancelledAt := some now } : Order).preSave)) := by
  simp only [cancelOrder, hfind]
  rw [if_neg hguard]

/-- `orderComputed` really carries its computed costs. -/
lemma orderComputed_fixed :
    orderComputed.calculateOrderCostsDefault = orderComputed := by
  rw [Order.calculateOrderCostsDefault, calculateOrderCosts_eq]
  norm_num [orderComputed, toFixed2]

/-- `Math.ceil` of an exact rational division agrees with rounding-up
natural division. -/
lemma ceil_natCast_div (total limit : Nat) (h : 1 ≤ limit) :
    ⌈(total : ℚ) / (limit : ℚ)⌉ = (((total + limit - 1) / limit : ℕ) : ℤ) := by
  have hl : (0 : ℚ) < (limit : ℚ) := by exact_mod_cast h
  have key := Nat.div_add_mod (total + limit - 1) limit
  have hmod : (total + limit - 1) % limit < limit := Nat.mod_lt _ h
  obtain ⟨z, hz⟩ : ∃ z, (total + limit - 1) / limit = z := ⟨_, rfl⟩
  obtain ⟨r, hr⟩ : ∃ r, (total + limit - 1) % limit = r := ⟨_, rfl⟩
  rw [hz, hr] at key
  rw [hr] at hmod
  rw [hz]
  obtain ⟨p, hp⟩ : ∃ p, limit * z = p := ⟨_, rfl⟩
  rw [hp] at key
  have f1 : total ≤ z * limit := by
    rw [mul_comm, hp]
    omega
  apply le_antisymm
  · rw [Int.ceil_le, div_le_iff₀ hl]
    exact_mod_cast f1
  · by_cases h0 : total = 0
    · subst h0
      have hz0 : z = 0 := by
        rw [← hz]
        exact Nat.div_eq_of_lt (by omega)
      subst hz0
      simp
    · have h1 : 1 ≤ total := Nat.one_le_iff_ne_zero.mpr h0
      have hzz : 1 ≤ z := by
        rw [← hz, Nat.one_le_div_iff h]
        omega
      have f2 : (z - 1) * limit < total := by
        rw [Nat.sub_mul, one_mul, mul_comm z limit, hp]
        omega
      have f2Q : ((z : ℚ) - 1) * (limit : ℚ) < (total : ℚ) := by
        have hc : ((z - 1 : ℕ) : ℚ) = (z : ℚ) - 1 := by
          rw [Nat.cast_sub hzz]
          norm_num
        rw [← hc]
        exact_mod_cast f2
      have hlt : ((z : ℤ) - 1) < ⌈(total : ℚ) / (limit : ℚ)⌉ := by
        rw [Int.lt_ceil, lt_div_iff₀ hl]
        push_cast
        exact f2Q
      omega

/-! ### Claim theorems -/

/-- C1: For every order with a given item list, the cost computation
proceeds in strict order and yields: subtotal = sum of item.subtotal
over all items; tax = round(subtotal × taxRate, 2 decimals) with
taxRate defaulting to 0.08; shippingCost = 0 if subtotal ≥
freeShippingThreshold (default 50) and the flat fee 199 otherwise (so
subtotal exactly equal to the threshold yields 0, and any subtotal
below it yields 199); total = round(subtotal + tax + shippingCost, 2
decimals). -/
theorem calculateOrderCosts_correct (o : Order) (taxRate freeShippingThreshold : ℚ) :
    ((o.calculateOrderCosts taxRate freeShippingThreshold).subtotal
        = (o.items.map OrderItem.subtotal).sum)
    ∧ ((o.calculateOrderCosts taxRate freeShippingThreshold).tax
        = toFixed2 ((o.items.map OrderItem.subtotal).sum * taxRate))
    ∧ (freeShippingThreshold ≤ (o.items.map OrderItem.subtotal).sum →
        (o.calculateOrderCosts taxRate freeShippingThreshold).shippingCost = 0)
    ∧ ((o.items.map OrderItem.subtotal).sum < freeShippingThreshold →
        (o.calculateOrderCosts taxRate freeShippingThreshold).shippingCost = 199)
    ∧ ((o.calculateOrderCosts taxRate freeShippingThreshold).total
        = toFixed2 ((o.calculateOrderCosts taxRate freeShippingThreshold).subtotal
            + (o.calculateOrderCosts taxRate freeShippingThreshold).tax
            + (o.calculateOrderCosts taxRate freeShippingThreshold).shippingCost))
    ∧ o.calculateOrderCostsDefault = o.calculateOrderCosts (8 / 100) 50 := by
  rw [calculateOrderCosts_eq]
  exact ⟨rfl, rfl, fun h => if_pos h, fun h => if_neg (not_le.mpr h), rfl, rfl⟩

/-- Witness for C1 at the free-shipping boundary: an item list summing
to exactly 50 ships free, one summing to 49.99 pays the 199 flat fee. -/
theorem calculateOrderCosts_correct_witness :
    (orderAt50.calculateOrderCosts (8 / 100) 50).shippingCost = 0
      ∧ (orderBelow50.calculateOrderCosts (8 / 100) 50).shippingCost = 199 := by
  constructor
  · exact (calculateOrderCosts_correct orderAt50 (8 / 100) 50).2.2.1
      (by norm_num [orderAt50])
  · exact (calculateOrderCosts_correct orderBelow50 (8 / 100) 50).2.2.2.1
      (by norm_num [orderBelow50, orderAt50])

/-- C7: Costs are computed exactly once at order creation: for every
save of an order whose subtotal is already non-zero, the pre-save hook
leaves the document (in particular subtotal, tax, shippingCost and
total) unchanged. -/
theorem preSave_keeps_computed_costs (o : Order) (h : o.subtotal ≠ 0) :
    o.preSave = o :=
  preSave_of_subtotal_ne o h

/-- Witness for C7: re-saving an order with non-zero subtotal changes
nothing. -/
theorem preSave_keeps_computed_costs_witness :
    orderComputed.preSave = orderComputed :=
  preSave_keeps_computed_costs orderComputed (by norm_num [orderComputed])

/-- C8: `canBeRefunded` returns true iff the order is delivered, its
payment is completed, and at most 30 days (in milliseconds) have
elapsed since creation; it is a pure read-only predicate. -/
theorem canBeRefunded_iff (o : Order) (now : Int) :
    o.canBeRefunded now = true ↔
      (o.orderStatus = OrderStatus.delivered
        ∧ o.paymentStatus = PaymentStatus.completed
        ∧ now - o.createdAt ≤ 30 * 24 * 60 * 60 * 1000) := by
  simp [Order.canBeRefunded, refundWindowMs, and_assoc]

/-- Witness for C8: a delivered, paid order 100 ms after creation is
refundable. -/
theorem canBeRefunded_iff_witness : orderDelivered.canBeRefunded 100 = true :=
  (canBeRefunded_iff orderDelivered 100).mpr ⟨rfl, rfl, by norm_num [orderDelivered, orderComputed]⟩

/-- C9: for every page ≥ 1, limit ≥ 1 and total ≥ 0, the pagination
metadata carries the inputs through unchanged, computes totalPages as
the rounding-up division ceil(total/limit), and sets hasNextPage iff
page × limit < total and hasPreviousPage iff page > 1. -/
theorem getPaginationMetadata_correct (page limit total : Nat)
    (_hp : 1 ≤ page) (hl : 1 ≤ limit) :
    (getPaginationMetadata page limit total).currentPage = page
    ∧ (getPaginationMetadata page limit total).itemsPerPage = limit
    ∧ (getPaginationMetadata page limit total).totalItems = total
    ∧ (getPaginationMetadata page limit total).totalPages
        = (((total + limit - 1) / limit : ℕ) : ℤ)
    ∧ ((getPaginationMetadata page limit total).hasNextPage = true
        ↔ page * limit < total)
    ∧ ((getPaginationMetadata page limit total).hasPreviousPage = true
        ↔ 1 < page) := by
  refine ⟨rfl, rfl, rfl, ceil_natCast_div total limit hl, ?_, ?_⟩ <;>
    simp [getPaginationMetadata]

/-- Witness for C9 at page 2, limit 10, total 25: three pages, a next
page (2·10 < 25) and a previous page. -/
theorem getPaginationMetadata_correct_witness :
    (getPaginationMetadata 2 10 25).totalPages = (((25 + 10 - 1) / 10 : ℕ) : ℤ)
    ∧ ((getPaginationMetadata 2 10 25).hasNextPage = true ↔ 2 * 10 < 25)
    ∧ ((getPaginationMetadata 2 10 25).hasPreviousPage = true ↔ 1 < 2) :=
  ⟨(getPaginationMetadata_correct 2 10 25 (by norm_num) (by norm_num)).2.2.2.1,
   (getPaginationMetadata_correct 2 10 25 (by norm_num) (by norm_num)).2.2.2.2.1,
   (getPaginationMetadata_correct 2 10 25 (by norm_num) (by norm_num)).2.2.2.2.2⟩

/-- C2: For every createOrder call where the caller's cart is non-empty
and every cart line's quantity does not exceed the referenced book's
current live stock, the operation succeeds and: the cart lines are
snapshotted into order line items each with subtotal = unit price ×
quantity, orderStatus is set to confirmed, paymentStatus is completed
for a prepaid method and pending for cash_on_delivery, every referenced
book's stock is decremented by the ordered quantity, and the cart is
cleared (items empty, total 0). -/
theorem createOrder_success_effects
    (db : DB) (userId : Nat) (sa : ShippingAddress) (pm : PaymentMethod)
    (notes : Option String) (orderNumber : String) (newOrderId : Nat) (now : Int)
    (cart : Cart)
    (hcart : findCart db.carts userId = some cart)
    (hne : cart.items ≠ [])
    (hstock : ∀ item ∈ cart.items, ∃ b, findBook db.books item.bookId = some b
        ∧ (item.quantity : Int) ≤ b.stock) :
    ∃ db' order,
      createOrder db userId (some sa) (some pm) notes orderNumber newOrderId now
        = (db', Except.ok order)
      ∧ order.items.map (fun it => (it.bookId, it.quantity, it.price))
          = cart.items.map (fun item => (item.bookId, item.quantity, item.price))
      ∧ (∀ it ∈ order.items, it.subtotal = it.price * (it.quantity : ℚ))
      ∧ order.orderStatus = OrderStatus.confirmed
      ∧ order.paymentStatus = (if pm = PaymentMethod.cash_on_delivery
          then PaymentStatus.pending else PaymentStatus.completed)
      ∧ (∀ id, stockOf db'.books id
          = (stockOf db.books id).map (fun s => s - cartQtyFor cart.items id))
      ∧ findCart db'.carts userId = some { items := [], total := 0 } := by
  have hv := validateItems_eq_none db.books cart.items hstock
  rw [createOrder_ok_eq db userId sa pm notes orderNumber newOrderId now cart
    hcart hne hv]
  have hitems : (((mkNewOrder db.books userId sa pm notes orderNumber now
      cart.items).calculateOrderCostsDefault).preSave).items
        = snapshotItems db.books cart.items := by
    rw [preSave_items, Order.calculateOrderCostsDefault, calculateOrderCosts_eq]
    rfl
  refine ⟨_, _, rfl, ?_, ?_, ?_, ?_, ?_, ?_⟩
  · rw [hitems]
    simp [snapshotItems, List.map_map, Function.comp]
  · intro it hit
    rw [hitems] at hit
    simp only [snapshotItems, List.mem_map] at hit
    obtain ⟨item, _, h⟩ := hit
    rw [← h]
  · rw [preSave_orderStatus, Order.calculateOrderCostsDefault,
      calculateOrderCosts_eq]
    rfl
  · rw [preSave_paymentStatus, Order.calculateOrderCostsDefault,
      calculateOrderCosts_eq]
    rfl
  · intro id
    exact stockOf_debit cart.items db.books id
  · rw [findCart_updateCart, hcart]
    rfl

/-- Witness for C2: the two-line cart over `db0` checks out. -/
theorem createOrder_success_effects_witness :
    ∃ db' order,
      createOrder db0 7 (some addr0) (some PaymentMethod.paypal) none
          "ORD-1" 100 0 = (db', Except.ok order)
      ∧ order.items.map (fun it => (it.bookId, it.quantity, it.price))
          = cart0.items.map (fun item => (item.bookId, item.quantity, item.price))
      ∧ (∀ it ∈ order.items, it.subtotal = it.price * (it.quantity : ℚ))
      ∧ order.orderStatus = OrderStatus.confirmed
      ∧ order.paymentStatus = (if PaymentMethod.paypal = PaymentMethod.cash_on_delivery
          then PaymentStatus.pending else PaymentStatus.completed)
      ∧ (∀ id, stockOf db'.books id
          = (stockOf db0.books id).map (fun s => s - cartQtyFor cart0.items id))
      ∧ findCart db'.carts 7 = some { items := [], total := 0 } :=
  createOrder_success_effects db0 7 addr0 PaymentMethod.paypal none "ORD-1" 100 0
    cart0 rfl (by decide)
    (by
      intro item h
      simp only [cart0, List.mem_cons, List.not_mem_nil, or_false] at h
      rcases h with h | h <;> subst h
      · exact ⟨_, rfl, by decide⟩
      · exact ⟨_, rfl, by decide⟩)

/-- C3: stock conservation — a successful createOrder followed by a
successful cancelOrder of that order returns every book's stock to its
value before the creation. -/
theorem create_cancel_stock_conservation
    (db : DB) (userId : Nat) (sa : ShippingAddress) (pm : PaymentMethod)
    (notes : Option String) (orderNumber : String) (newOrderId : Nat)
    (now now2 : Int) (cart : Cart)
    (hcart : findCart db.carts userId = some cart)
    (hne : cart.items ≠ [])
    (hstock : ∀ item ∈ cart.items, ∃ b, findBook db.books item.bookId = some b
        ∧ (item.quantity : Int) ≤ b.stock) :
    ∃ db1 order db2 order2,
      createOrder db userId (some sa) (some pm) notes orderNumber newOrderId now
        = (db1, Except.ok order)
      ∧ cancelOrder db1 newOrderId userId now2 = (db2, Except.ok order2)
      ∧ ∀ id, stockOf db2.books id = stockOf db.books id := by
  have hv := validateItems_eq_none db.books cart.items hstock
  rw [createOrder_ok_eq db userId sa pm notes orderNumber newOrderId now cart
    hcart hne hv]
  have hu : (((mkNewOrder db.books userId sa pm notes orderNumber now
      cart.items).calculateOrderCostsDefault).preSave).userId = userId := by
    rw [preSave_userId, Order.calculateOrderCostsDefault, calculateOrderCosts_eq]
    rfl
  have hst : (((mkNewOrder db.books userId sa pm notes orderNumber now
      cart.items).calculateOrderCostsDefault).preSave).orderStatus
        = OrderStatus.confirmed := by
    rw [preSave_orderStatus, Order.calculateOrderCostsDefault,
      calculateOrderCosts_eq]
    rfl
  have hitems : (((mkNewOrder db.books userId sa pm notes orderNumber now
      cart.items).calculateOrderCostsDefault).preSave).items
        = snapshotItems db.books cart.items := by
    rw [preSave_items, Order.calculateOrderCostsDefault, calculateOrderCosts_eq]
    rfl
  have hfind : findOrderOwned ((newOrderId,
      ((mkNewOrder db.books userId sa pm notes orderNumber now
        cart.items).calculateOrderCostsDefault).preSave) :: db.orders)
      newOrderId userId
      = some (((mkNewOrder db.books userId sa pm notes orderNumber now
        cart.items).calculateOrderCostsDefault).preSave) := by
    simp [findOrderOwned, List.find?, hu]
  have hguard : ¬((((mkNewOrder db.books userId sa pm notes orderNumber now
      cart.items).calculateOrderCostsDefault).preSave).orderStatus
        = OrderStatus.delivered
      ∨ (((mkNewOrder db.books userId sa pm notes orderNumber now
        cart.items).calculateOrderCostsDefault).preSave).orderStatus
        = OrderStatus.cancelled) := by
    rw [hst]
    rintro (h | h) <;> exact OrderStatus.noConfusion h
  refine ⟨_, _, _, _, rfl,
    cancelOrder_ok_eq _ newOrderId userId now2 _ hfind hguard, ?_⟩
  intro id
  rw [stockOf_credit, preSave_items, stockOf_debit]
  rw [hitems, orderQtyFor_snapshotItems]
  cases hs : stockOf db.books id <;> simp [hs]

/-- Witness for C3: creating then cancelling the `cart0` order over
`db0` restores both books' stock. -/
theorem create_cancel_stock_conservation_witness :
    ∃ db1 order db2 order2,
      createOrder db0 7 (some addr0) (some PaymentMethod.paypal) none
          "ORD-1" 100 0 = (db1, Except.ok order)
      ∧ cancelOrder db1 100 7 5 = (db2, Except.ok order2)
      ∧ ∀ id, stockOf db2.books id = stockOf db0.books id :=
  create_cancel_stock_conservation db0 7 addr0 PaymentMethod.paypal none
    "ORD-1" 100 0 5 cart0 rfl (by decide)
    (by
      intro item h
      simp only [cart0, List.mem_cons, List.not_mem_nil, or_false] at h
      rcases h with h | h <;> subst h
      · exact ⟨_, rfl, by decide⟩
      · exact ⟨_, rfl, by decide⟩)

/-- C4 (failure paths of createOrder, evaluated at concrete states):
an absent-or-empty cart yields EMPTY_CART and an insufficient line
yields INSUFFICIENT_STOCK with the available count, each leaving the
state untouched; but a cart line whose book no longer exists does NOT
yield the intended BOOK_NOT_FOUND — `populate` leaves `item.bookId`
null, `item.bookId._id` throws, and the catch produces a 500
INTERNAL_SERVER_ERROR (still before any mutation). -/
theorem createOrder_failure_paths :
    createOrder dbEmptyCart 7 (some addr0) (some PaymentMethod.paypal) none
        "ORD-E" 100 0 = (dbEmptyCart, Except.error OrderError.emptyCart)
    ∧ createOrder dbMissingBook 7 (some addr0) (some PaymentMethod.paypal) none
        "ORD-M" 100 0 = (dbMissingBook, Except.error OrderError.internalServerError)
    ∧ createOrder dbLowStock 7 (some addr0) (some PaymentMethod.paypal) none
        "ORD-L" 100 0
        = (dbLowStock, Except.error (OrderError.insufficientStock "Emma" 3)) :=
  ⟨rfl, rfl, rfl⟩

/-- C5: cancelOrder yields ORDER_NOT_FOUND when the order is absent or
not owned by the caller; yields INVALID_ORDER_STATUS on a delivered or
already-cancelled order without mutating anything; on success it sets
orderStatus to cancelled and cancelledAt to now and credits back every
line's quantity. -/
theorem cancelOrder_cases (db : DB) (orderId userId : Nat) (now : Int) :
    (findOrderOwned db.orders orderId userId = none →
      cancelOrder db orderId userId now
        = (db, Except.error OrderError.orderNotFound))
    ∧ (∀ o, findOrderOwned db.orders orderId userId = some o →
        (o.orderStatus = OrderStatus.delivered
          ∨ o.orderStatus = OrderStatus.cancelled) →
        cancelOrder db orderId userId now
          = (db, Except.error (OrderError.invalidOrderStatus o.orderStatus)))
    ∧ (∀ o, findOrderOwned db.orders orderId userId = some o →
        o.orderStatus ≠ OrderStatus.delivered →
        o.orderStatus ≠ OrderStatus.cancelled →
        ∃ db' o', cancelOrder db orderId userId now = (db', Except.ok o')
          ∧ o'.orderStatus = OrderStatus.cancelled
          ∧ o'.cancelledAt = some now
          ∧ ∀ id, stockOf db'.books id
              = (stockOf db.books id).map
                  (fun s => s + orderQtyFor o.items id)) := by
  refine ⟨?_, ?_, ?_⟩
  · intro h
    simp [cancelOrder, h]
  · intro o ho hstat
    simp only [cancelOrder, ho]
    rw [if_pos hstat]
  · intro o ho h1 h2
    have hguard : ¬(o.orderStatus = OrderStatus.delivered
        ∨ o.orderStatus = OrderStatus.cancelled) := by
      rintro (h | h)
      exacts [h1 h, h2 h]
    rw [cancelOrder_ok_eq db orderId userId now o ho hguard]
    refine ⟨_, _, rfl, ?_, ?_, ?_⟩
    · rw [preSave_orderStatus]
    · rw [preSave_cancelledAt]
    · intro id
      rw [stockOf_credit, preSave_items]

/-- Witness for C5: cancelling the confirmed order of `dbConfirmed`
succeeds, stamps `cancelledAt = 11` and credits the stock back. -/
theorem cancelOrder_cases_witness :
    ∃ db' o', cancelOrder dbConfirmed 1 2 11 = (db', Except.ok o')
      ∧ o'.orderStatus = OrderStatus.cancelled
      ∧ o'.cancelledAt = some 11
      ∧ ∀ id, stockOf db'.books id
          = (stockOf dbConfirmed.books id).map
              (fun s => s + orderQtyFor orderComputed.items id) :=
  (cancelOrder_cases dbConfirmed 1 2 11).2.2 orderComputed rfl
    (by decide) (by decide)

/-- C6 counterexample: `updateOrderStatus` happily moves a delivered
order (a terminal state) back to pending, so orderStatus does not only
move forward. -/
theorem updateOrderStatus_backward_move :
    (findOrder dbDelivered.orders 1).map Order.orderStatus
        = some OrderStatus.delivered
    ∧ (updateOrderStatus dbDelivered 1 "pending" 7).2
        = Except.ok ({ orderDelivered with orderStatus := OrderStatus.pending })
    ∧ (findOrder (updateOrderStatus dbDelivered 1 "pending" 7).1.orders 1).map
        Order.orderStatus = some OrderStatus.pending :=
  ⟨rfl, rfl, rfl⟩

/-- C6 (amended): `updateOrderStatus` enforces no transition validity:
whenever the status string is in the enumerated set and the order
exists, it succeeds and assigns exactly that status, whatever the
current status — backward moves and moves out of the terminal states
included.  (Only `cancelOrder` guards its own transition, refusing
delivered and cancelled orders.) -/
theorem updateOrderStatus_unrestricted (db : DB) (orderId : Nat) (s : String)
    (now : Int) (st : OrderStatus) (o : Order)
    (hs : statusOfString s = some st)
    (ho : findOrder db.orders orderId = some o) :
    ∃ o', (updateOrderStatus db orderId s now).2 = Except.ok o'
      ∧ o'.orderStatus = st := by
  simp only [updateOrderStatus, hs, ho]
  exact ⟨_, rfl, by rw [preSave_orderStatus]⟩

/-- Witness for the amended C6: the delivered order of `dbDelivered` is
moved back to shipped. -/
theorem updateOrderStatus_unrestricted_witness :
    ∃ o', (updateOrderStatus dbDelivered 1 "shipped" 9).2 = Except.ok o'
      ∧ o'.orderStatus = OrderStatus.shipped :=
  updateOrderStatus_unrestricted dbDelivered 1 "shipped" 9 OrderStatus.shipped
    orderDelivered rfl rfl

/-- C10: frame property of a successful cancellation — on an order
whose stored costs are the computed ones (as creation leaves them),
only orderStatus and cancelledAt change; items, the four cost fields,
shippingAddress, paymentMethod and paymentStatus (completed stays
completed, never refunded) are untouched. -/
theorem cancelOrder_frame (db : DB) (orderId userId : Nat) (now : Int)
    (o : Order) (db' : DB) (o' : Order)
    (hfind : findOrderOwned db.orders orderId userId = some o)
    (hfix : o.calculateOrderCostsDefault = o)
    (hok : cancelOrder db orderId userId now = (db', Except.ok o')) :
    o'.userId = o.userId ∧ o'.orderNumber = o.orderNumber
    ∧ o'.items = o.items
    ∧ o'.shippingAddress = o.shippingAddress
    ∧ o'.paymentMethod = o.paymentMethod
    ∧ o'.paymentStatus = o.paymentStatus
    ∧ o'.subtotal = o.subtotal ∧ o'.tax = o.tax
    ∧ o'.shippingCost = o.shippingCost ∧ o'.total = o.total
    ∧ o'.notes = o.notes ∧ o'.deliveredAt = o.deliveredAt
    ∧ o'.createdAt = o.createdAt
    ∧ o'.orderStatus = OrderStatus.cancelled
    ∧ o'.cancelledAt = some now := by
  by_cases hguard : o.orderStatus = OrderStatus.delivered
      ∨ o.orderStatus = OrderStatus.cancelled
  · simp only [cancelOrder, hfind] at hok
    rw [if_pos hguard] at hok
    exact absurd (congrArg Prod.snd hok) (by simp)
  · rw [cancelOrder_ok_eq db orderId userId now o hfind hguard] at hok
    have ho' : ({ o with orderStatus := OrderStatus.cancelled, cancelledAt := some now } : Order) = o' := by
      have h2 := congrArg Prod.snd hok
      rw [preSave_update_of_fixed o OrderStatus.cancelled (some now) hfix] at h2
      simpa using h2
    rw [← ho']
    exact ⟨rfl, rfl, rfl, rfl, rfl, rfl, rfl, rfl, rfl, rfl, rfl, rfl, rfl,
      rfl, rfl⟩

/-- Witness for C10: cancelling the confirmed, cost-computed order of
`dbConfirmed` changes only orderStatus and cancelledAt. -/
theorem cancelOrder_frame_witness :
    cancelledComputed.paymentStatus = orderComputed.paymentStatus
    ∧ cancelledComputed.total = orderComputed.total
    ∧ cancelledComputed.items = orderComputed.items
    ∧ cancelledComputed.orderStatus = OrderStatus.cancelled
    ∧ cancelledComputed.cancelledAt = some 11 :=
  ((fun h => ⟨h.2.2.2.2.2.1, h.2.2.2.2.2.2.2.2.2.1, h.2.2.1,
      h.2.2.2.2.2.2.2.2.2.2.2.2.2.1, h.2.2.2.2.2.2.2.2.2.2.2.2.2.2⟩) :
    _ → _)
    (cancelOrder_frame dbConfirmed 1 2 11 orderComputed dbConfirmedCancelled
      cancelledComputed rfl orderComputed_fixed rfl)

end Ecom
